import Mathlib

/-!
Shallow embedding of the raston-function-rework repository
(`src/app.py`, `src/helper.py`, `src/blackbody_window_detector.py`).

Real-valued analytic component models are embedded over `ℝ` (Python float
arithmetic idealised as exact real arithmetic, `**` on positive floats as
`Real.rpow`).  The configuration dictionary is embedded as an association
list of JSON-like values, and the orchestrator `main` as a pure function
from the configuration, an abstract solver and an abstract noise stream to
a trace of events plus an optional final spectrum.
-/

/-! ## Physical constants of `__sPlanck` (blackbody_window_detector.py, lines 25-27) -/

namespace Planck

noncomputable def H : ℝ := 6.62606957e-34

noncomputable def C : ℝ := 2.99792458e8

noncomputable def K_B : ℝ := 1.3806488e-23

end Planck

/-! ## Optical component models (blackbody_window_detector.py)

Each Python function takes the spectral-axis value (`spectrum` / `data`)
and returns a real number; `x_um = data / 1000` is inlined.
-/

/-- Source model `__sPlanck` (lines 14-31): note the final factor of the
denominator is the raw axis value `spectrum`, not `spectrum * 10⁻⁹`. -/
noncomputable def sPlanck (spectrum temp : ℝ) : ℝ :=
  ((0.2 * Planck.H * Planck.C ^ 2) / ((spectrum * 1e-9) ^ 4 * spectrum)) *
    (1 / (Real.exp ((Planck.H * Planck.C) / ((spectrum * 1e-9) * Planck.K_B * temp)) - 1))

/-- Cell window model `__CaF2` (line 48). -/
noncomputable def CaF2 (data : ℝ) : ℝ :=
  0.93091 / (1 + (11.12929 / (data / 1000)) ^ (-12.43933 : ℝ)) ^ (4.32574 : ℝ)

/-- Cell window model `__ZnSe` (lines 62-65). -/
noncomputable def ZnSe (data : ℝ) : ℝ :=
  0.71015 / (1 + (20.99353 / (data / 1000)) ^ (-19.31355 : ℝ)) ^ (1.44348 : ℝ) +
    -0.13265 / (2.25051 * Real.sqrt (Real.pi / (4 * Real.log 2))) *
      Real.exp (-4 * Real.log 2 * (data / 1000 - 16.75) ^ 2 / 2.25051 ^ 2)

/-- Detector window model `__sapphire` (line 79). -/
noncomputable def sapphire (data : ℝ) : ℝ :=
  0.78928 / (1 + (11.9544 / (data / 1000)) ^ (-12.07226 : ℝ)) ^ (6903.57039 : ℝ)

/-- Beamsplitter model `__AR_ZnSe` (lines 93-123): a logistic-saturation
baseline plus nine normalized-area Gaussian terms. -/
noncomputable def AR_ZnSe (data : ℝ) : ℝ :=
  0.82609 / (1 + (34.63971 / (data / 1000)) ^ (-8.56269 : ℝ)) ^ (186.34792 : ℝ) +
    -0.47 / (0.55 * Real.sqrt (Real.pi / (4 * Real.log 2))) *
      Real.exp (-4 * Real.log 2 * (data / 1000 - 1.47) ^ 2 / 0.55 ^ 2) +
    -0.03456 / (0.4 * Real.sqrt (Real.pi / (4 * Real.log 2))) *
      Real.exp (-4 * Real.log 2 * (data / 1000 - 2.88) ^ 2 / 0.4 ^ 2) +
    -0.009 / (0.3 * Real.sqrt (Real.pi / (4 * Real.log 2))) *
      Real.exp (-4 * Real.log 2 * (data / 1000 - 6.16) ^ 2 / 0.3 ^ 2) +
    -0.09 / (1 * Real.sqrt (Real.pi / (4 * Real.log 2))) *
      Real.exp (-4 * Real.log 2 * (data / 1000 - 16.2) ^ 2 / 1 ^ 2) +
    -0.08 / (1 * Real.sqrt (Real.pi / (4 * Real.log 2))) *
      Real.exp (-4 * Real.log 2 * (data / 1000 - 17.4) ^ 2 / 1 ^ 2) +
    1.12 / (8 * Real.sqrt (Real.pi / (4 * Real.log 2))) *
      Real.exp (-4 * Real.log 2 * (data / 1000 - 9.5) ^ 2 / 8 ^ 2) +
    0.11546 / (2 * Real.sqrt (Real.pi / (4 * Real.log 2))) *
      Real.exp (-4 * Real.log 2 * (data / 1000 - 4.9) ^ 2 / 2 ^ 2) +
    0.21751 / (2 * Real.sqrt (Real.pi / (4 * Real.log 2))) *
      Real.exp (-4 * Real.log 2 * (data / 1000 - 2.6) ^ 2 / 2 ^ 2) +
    -0.05 / (0.07 * Real.sqrt (Real.pi / (4 * Real.log 2))) *
      Real.exp (-4 * Real.log 2 * (data / 1000 - 0.8) ^ 2 / 0.07 ^ 2)

/-- Beamsplitter model `__AR_CaF2` (lines 137-164). -/
noncomputable def AR_CaF2 (data : ℝ) : ℝ :=
  0.9795 / (1 + (18.77617 / (data / 1000)) ^ (-6.94246 : ℝ)) ^ (91.98745 : ℝ) +
    -0.06 / (0.08 * Real.sqrt (Real.pi / (4 * Real.log 2))) *
      Real.exp (-4 * Real.log 2 * (data / 1000 - 0.76) ^ 2 / 0.08 ^ 2) +
    -0.06 / (0.2 * Real.sqrt (Real.pi / (4 * Real.log 2))) *
      Real.exp (-4 * Real.log 2 * (data / 1000 - 1.06) ^ 2 / 0.20 ^ 2) +
    -0.6 / (3.0 * Real.sqrt (Real.pi / (4 * Real.log 2))) *
      Real.exp (-4 * Real.log 2 * (data / 1000 - 4.85) ^ 2 / 3.0 ^ 2) +
    -0.35 / (1.0 * Real.sqrt (Real.pi / (4 * Real.log 2))) *
      Real.exp (-4 * Real.log 2 * (data / 1000 - 9.40) ^ 2 / 1.00 ^ 2) +
    0.05 / (0.8 * Real.sqrt (Real.pi / (4 * Real.log 2))) *
      Real.exp (-4 * Real.log 2 * (data / 1000 - 2.60) ^ 2 / 0.8 ^ 2) +
    0.04 / (0.5 * Real.sqrt (Real.pi / (4 * Real.log 2))) *
      Real.exp (-4 * Real.log 2 * (data / 1000 - 7.75) ^ 2 / 0.50 ^ 2) +
    -0.01 / (0.6 * Real.sqrt (Real.pi / (4 * Real.log 2))) *
      Real.exp (-4 * Real.log 2 * (data / 1000 - 6.55) ^ 2 / 0.6 ^ 2) +
    0.01 / (0.5 * Real.sqrt (Real.pi / (4 * Real.log 2))) *
      Real.exp (-4 * Real.log 2 * (data / 1000 - 1.82) ^ 2 / 0.5 ^ 2)

/-- Detector model `__InSb` (lines 181-186). -/
noncomputable def InSb (data : ℝ) : ℝ :=
  1.97163e11 * (1 / (1 + Real.exp (-(data / 1000 - 5.3939) / 1.6624))) *
      (1 - 1 / (1 + Real.exp (-(data / 1000 - 5.3939) / 0.11925))) +
    3.3e10 / (2.44977 * Real.sqrt (Real.pi / (4 * Real.log 2))) *
      Real.exp (-4 * Real.log 2 * (data / 1000 - 5) ^ 2 / 2.44977 ^ 2)

/-- Detector model `__MCT` (lines 200-209). -/
noncomputable def MCT (data : ℝ) : ℝ :=
  1.98748 * (10 : ℝ) ^ (9 : ℕ) +
    2.10252 * (10 : ℝ) ^ (10 : ℕ) *
      (1 / (1 + Real.exp (-(data / 1000 - 20.15819) / 5.73688))) *
      (1 - 1 / (1 + Real.exp (-(data / 1000 - 20.15819) / 1.11659))) +
    1.3 * (10 : ℝ) ^ (9 : ℕ) / (2 * Real.sqrt (Real.pi / (4 * Real.log 2))) *
      Real.exp (-4 * Real.log 2 * (data / 1000 - 18.6) ^ 2 / 2 ^ 2)

/-! ## helper.py -/

/-- JSON-like value stored in the configuration dictionary. -/
inductive JVal
  | null
  | num (q : ℚ)
  | str (s : String)
deriving DecidableEq

/-- Python's `value is None` test. -/
def JVal.isNull : JVal → Bool
  | .null => true
  | _ => false

/-- The eleven recognised parameter names (`helper.py`, lines 22-34). -/
def validParams : List String :=
  ["minWave", "maxWave", "molecule", "pressure", "resolution", "numScan",
   "zeroFill", "source", "beamsplitter", "cellWindow", "detector"]

/-- `__param_check` (helper.py, lines 5-43): the dictionary is embedded as an
association list (its key list is nodup for a Python dict); the function
returns false when the entry count differs from 11, and otherwise checks
every key is recognised and every value is non-null. -/
def param_check (data : List (String × JVal)) : Bool :=
  if data.length ≠ 11 then false
  else data.all fun kv => decide (kv.1 ∈ validParams) && !(kv.2.isNull)

/-- `__calc_wstep` (helper.py, lines 46-106): the nested `match` over the
resolution and zero-fill values; a pair outside the fifteen listed cases
leaves the local `wstep` unbound, which raises in Python and is embedded
as `none`. -/
def calc_wstep (resolution zero_fill : ℚ) : Option ℚ :=
  if resolution = 1 then
    if zero_fill = 0 then some 0.481927711
    else if zero_fill = 1 then some 0.240963855
    else if zero_fill = 2 then some 0.120481928
    else none
  else if resolution = 0.5 then
    if zero_fill = 0 then some 0.240963855
    else if zero_fill = 1 then some 0.120481928
    else if zero_fill = 2 then some 0.060240964
    else none
  else if resolution = 0.25 then
    if zero_fill = 0 then some 0.120481928
    else if zero_fill = 1 then some 0.060240964
    else if zero_fill = 2 then some 0.030120482
    else none
  else if resolution = 0.125 then
    if zero_fill = 0 then some 0.060240964
    else if zero_fill = 1 then some 0.030120482
    else if zero_fill = 2 then some 0.015060241
    else none
  else if resolution = 0.0625 then
    if zero_fill = 0 then some 0.030120482
    else if zero_fill = 1 then some 0.015060241
    else if zero_fill = 2 then some 0.00753012
    else none
  else none

/-! ## Dictionary access (Python `data[key]` after validation) -/

/-- Dictionary lookup: the value stored under `k`, if present. -/
def lookup (data : List (String × JVal)) (k : String) : Option JVal :=
  (data.find? fun kv => kv.1 == k).map Prod.snd

/-- A numeric entry of the configuration. -/
def getQ (data : List (String × JVal)) (k : String) : Option ℚ :=
  match lookup data k with
  | some (.num q) => some q
  | _ => none

/-- A string entry of the configuration. -/
def getStr (data : List (String × JVal)) (k : String) : Option String :=
  match lookup data k with
  | some (.str s) => some s
  | _ => none

/-- The scan count, as consumed by `range(data["numScan"])`: an integral
number yields a natural iteration count (negative values iterate zero
times); a non-integral number makes `range` raise, embedded as `none`. -/
def getScanCount (data : List (String × JVal)) : Option ℕ :=
  match getQ data "numScan" with
  | some q => if q.den = 1 then some q.num.toNat else none
  | none => none

/-! ## app.py: spectrum algebra and the scan loop

A spectrum is embedded as its transmittance channel `ℕ → ℝ` on the shared
axis `w : ℕ → ℝ` (the solver's wavenumber grid).
-/

/-- `SerialSlabs` (radis): pointwise product of transmittance channels. -/
noncomputable def serialSlabs (a b : ℕ → ℝ) : ℕ → ℝ := fun i => a i * b i

/-- `add_array` (radis): pointwise addition of an array to the channel. -/
noncomputable def add_array (a arr : ℕ → ℝ) : ℕ → ℝ := fun i => a i + arr i

/-- A component model evaluated on the shared axis (the `Spectrum(...)`
constructions of app.py, lines 82-151). -/
noncomputable def spec_of (f : ℝ → ℝ) (w : ℕ → ℝ) : ℕ → ℝ := fun i => f (w i)

/-- Stage c.1 of the scan loop (app.py, lines 165-169): the `match` on
`data["beamsplitter"]`; an unmatched value leaves the spectrum unchanged. -/
noncomputable def stageBeamsplitter (bs : String) (w sp : ℕ → ℝ) : ℕ → ℝ :=
  if bs = "AR_ZnSe" then serialSlabs sp (spec_of AR_ZnSe w)
  else if bs = "AR_CaF2" then serialSlabs sp (spec_of AR_CaF2 w)
  else sp

/-- Stage c.2 of the scan loop (app.py, lines 178-184): the `match` on
`data["cellWindow"]`, composing the selected window twice. -/
noncomputable def stageCellWindow (cw : String) (w sp : ℕ → ℝ) : ℕ → ℝ :=
  if cw = "CaF2" then serialSlabs (serialSlabs sp (spec_of CaF2 w)) (spec_of CaF2 w)
  else if cw = "ZnSe" then serialSlabs (serialSlabs sp (spec_of ZnSe w)) (spec_of ZnSe w)
  else sp

/-- Stage d of the scan loop (app.py, lines 195-201): the `match` on
`data["detector"]`, composing detector window then detector element. -/
noncomputable def stageDetector (det : String) (w sp : ℕ → ℝ) : ℕ → ℝ :=
  if det = "MCT" then serialSlabs (serialSlabs sp (spec_of ZnSe w)) (spec_of MCT w)
  else if det = "InSb" then serialSlabs (serialSlabs sp (spec_of sapphire w)) (spec_of InSb w)
  else sp

/-- One iteration of the scan loop (app.py, lines 161-219): beamsplitter,
cell window twice, detector chain, then the noise array is added to the
transmittance channel unconditionally. -/
noncomputable def scanStep (bs cw det : String) (w noiseArr sp : ℕ → ℝ) : ℕ → ℝ :=
  add_array (stageDetector det w (stageCellWindow cw w (stageBeamsplitter bs w sp))) noiseArr

/-- The scan loop `for x in range(numScan)`: `runScans bs cw det w noise i n sp`
executes scans `i, i+1, ..., i+n-1` on the running spectrum `sp`, where
`noise j` is the random array drawn during scan `j`. -/
noncomputable def runScans (bs cw det : String) (w : ℕ → ℝ) (noise : ℕ → ℕ → ℝ) :
    ℕ → ℕ → (ℕ → ℝ) → (ℕ → ℝ)
  | _, 0, sp => sp
  | i, n + 1, sp => runScans bs cw det w noise (i + 1) n (scanStep bs cw det w (noise i) sp)

/-- The running spectrum on which scan `i` begins (state of the loop
variable `spectrum` when `x = i`), starting from the post-source
spectrum `sp`. -/
noncomputable def scanBase (bs cw det : String) (w : ℕ → ℝ) (noise : ℕ → ℕ → ℝ)
    (i : ℕ) (sp : ℕ → ℝ) : ℕ → ℝ :=
  runScans bs cw det w noise 0 i sp

/-! ## Spec-side definitions used to compare against the source

These follow the spec's words (for refinement-style claims), to be
compared with the definitions transcribed from the source above.
-/

/-- Modelled from the spec: the Source formula as the spec states it,
with denominator `x_m⁴ · x_m` where `x_m = x·10⁻⁹`. -/
noncomputable def sPlanckClaim (x T : ℝ) : ℝ :=
  (0.2 * Planck.H * Planck.C ^ 2) / ((x * 1e-9) ^ 4 * (x * 1e-9)) *
    (1 / (Real.exp ((Planck.H * Planck.C) / ((x * 1e-9) * Planck.K_B * T)) - 1))

/-- The amended Source formula: denominator `x_m⁴ · x`, the final factor
being the raw axis value, as in the source. -/
noncomputable def sPlanckAmended (x T : ℝ) : ℝ :=
  (0.2 * Planck.H * Planck.C ^ 2) / ((x * 1e-9) ^ 4 * x) *
    (1 / (Real.exp ((Planck.H * Planck.C) / ((x * 1e-9) * Planck.K_B * T)) - 1))

/-- Normalized-area Gaussian term `A / (σ·√(π/(4·ln2))) · exp(−4·ln2·(x−μ)²/σ²)`
(spec §4.3). -/
noncomputable def gaussTerm (A sigma mu x : ℝ) : ℝ :=
  A / (sigma * Real.sqrt (Real.pi / (4 * Real.log 2))) *
    Real.exp (-4 * Real.log 2 * (x - mu) ^ 2 / sigma ^ 2)

/-- Logistic-saturation baseline of `__AR_ZnSe`. -/
noncomputable def ARZnSe_baseline (x : ℝ) : ℝ :=
  0.82609 / (1 + (34.63971 / (x / 1000)) ^ (-8.56269 : ℝ)) ^ (186.34792 : ℝ)

/-- The (area, width, center) triples of the Gaussian terms of `__AR_ZnSe`,
in source order (blackbody_window_detector.py, lines 96-122). -/
noncomputable def ARZnSe_gaussians : List (ℝ × ℝ × ℝ) :=
  [(-0.47, 0.55, 1.47), (-0.03456, 0.4, 2.88), (-0.009, 0.3, 6.16),
   (-0.09, 1, 16.2), (-0.08, 1, 17.4), (1.12, 8, 9.5), (0.11546, 2, 4.9),
   (0.21751, 2, 2.6), (-0.05, 0.07, 0.8)]

/-- The beamsplitter factor selected by the `match` of app.py lines 165-169
(`1` when the selector is unrecognised). -/
noncomputable def beamFactor (bs : String) (x : ℝ) : ℝ :=
  if bs = "AR_ZnSe" then AR_ZnSe x else if bs = "AR_CaF2" then AR_CaF2 x else 1

/-- The cell-window factor selected by the `match` of app.py lines 178-184. -/
noncomputable def windowFactor (cw : String) (x : ℝ) : ℝ :=
  if cw = "CaF2" then CaF2 x else if cw = "ZnSe" then ZnSe x else 1

/-- The detector window/filter factor selected by the `match` of app.py
lines 195-201: ZnSe for MCT, sapphire for InSb. -/
noncomputable def detWindowFactor (det : String) (x : ℝ) : ℝ :=
  if det = "MCT" then ZnSe x else if det = "InSb" then sapphire x else 1

/-- The detector element factor selected by the `match` of app.py
lines 195-201. -/
noncomputable def detElementFactor (det : String) (x : ℝ) : ℝ :=
  if det = "MCT" then MCT x else if det = "InSb" then InSb x else 1

/-- A well-formed concrete configuration used by witnesses. -/
def sampleConfig : List (String × JVal) :=
  [("minWave", JVal.num 400), ("maxWave", JVal.num 700),
   ("molecule", JVal.str "CO2"), ("pressure", JVal.num 1),
   ("resolution", JVal.num 1), ("numScan", JVal.num 0),
   ("zeroFill", JVal.num 0), ("source", JVal.num 300),
   ("beamsplitter", JVal.str "AR_ZnSe"), ("cellWindow", JVal.str "CaF2"),
   ("detector", JVal.str "MCT")]

/-! ## app.py: the `main` orchestrator -/

/-- Observable events of one run of `main`. -/
inductive Event
  | paramCheckFailed
  | wstepError
  | solverCalled
  | solverFailed
  | typeError
  | pipelineRun
deriving DecidableEq

/-- The `main` function of app.py (lines 32-219), with the external
line-by-line solver (`calc_spectrum` plus `get_wavenumber`) abstracted as
a fallible function from the grid step to an axis/transmittance pair, and
the noise draws abstracted as a stream of arrays.  Returns the ordered
trace of observable events together with the final spectrum, if any. -/
noncomputable def mainRun (data : List (String × JVal))
    (solver : ℚ → Except String ((ℕ → ℝ) × (ℕ → ℝ))) (noise : ℕ → ℕ → ℝ) :
    List Event × Option (ℕ → ℝ) :=
  if param_check data = false then ([Event.paramCheckFailed], none)
  else
    match getQ data "resolution", getQ data "zeroFill" with
    | some r, some z =>
      match calc_wstep r z with
      | some ws =>
        match solver ws with
        | Except.error _ => ([Event.solverCalled, Event.solverFailed], none)
        | Except.ok (w, s) =>
          match getQ data "source", getStr data "beamsplitter", getStr data "cellWindow",
              getStr data "detector", getScanCount data with
          | some T, some bs, some cw, some det, some n =>
            ([Event.solverCalled, Event.pipelineRun],
              some (runScans bs cw det w noise 0 n
                (serialSlabs s (spec_of (fun x => sPlanck x (T : ℝ)) w))))
          | _, _, _, _, _ => ([Event.solverCalled, Event.typeError], none)
      | none => ([Event.wstepError], none)
    | _, _ => ([Event.wstepError], none)

/-! ## Helper lemmas -/

theorem JVal.isNull_eq_false {v : JVal} : v.isNull = false ↔ v ≠ JVal.null := by
cases v <;> simp [JVal.isNull]

theorem runScans_succ (bs cw det : String) (w : ℕ → ℝ) (noise : ℕ → ℕ → ℝ) :
    ∀ (n i : ℕ) (sp : ℕ → ℝ),
      runScans bs cw det w noise i (n + 1) sp
        = scanStep bs cw det w (noise (i + n)) (runScans bs cw det w noise i n sp) := by
intro n
induction n with
| zero => intro i sp; simp [runScans]
| succ n ih =>
  intro i sp
  have h1 : runScans bs cw det w noise i (n + 1 + 1) sp
      = runScans bs cw det w noise (i + 1) (n + 1) (scanStep bs cw det w (noise i) sp) := rfl
  have h2 : runScans bs cw det w noise i (n + 1) sp
      = runScans bs cw det w noise (i + 1) n (scanStep bs cw det w (noise i) sp) := rfl
  rw [h1, ih (i + 1), h2, show i + 1 + n = i + (n + 1) from by omega]

theorem runScans_split (bs cw det : String) (w : ℕ → ℝ) (noise : ℕ → ℕ → ℝ) :
    ∀ (a b i : ℕ) (sp : ℕ → ℝ),
      runScans bs cw det w noise i (a + b) sp
        = runScans bs cw det w noise (i + a) b (runScans bs cw det w noise i a sp) := by
intro a
induction a with
| zero => intro b i sp; simp [runScans]
| succ a ih =>
  intro b i sp
  have h1 : runScans bs cw det w noise i (a + 1 + b) sp
      = runScans bs cw det w noise (i + 1) (a + b) (scanStep bs cw det w (noise i) sp) := by
    rw [show a + 1 + b = (a + b) + 1 from by omega]
    rfl
  have h2 : runScans bs cw det w noise i (a + 1) sp
      = runScans bs cw det w noise (i + 1) a (scanStep bs cw det w (noise i) sp) := rfl
  rw [h1, ih b (i + 1), h2, show i + 1 + a = i + (a + 1) from by omega]

/-! ## Claims -/

/-- C5: for every one of the 15 valid (resolution, zeroFill) pairs,
`__calc_wstep` returns the exact tabulated constant; in particular
`step(1, 0) = 0.481927711` and `step(0.0625, 2) = 0.00753012`. -/
theorem claimC5_wstep_table :
    calc_wstep 1 0 = some 0.481927711 ∧
    calc_wstep 1 1 = some 0.240963855 ∧
    calc_wstep 1 2 = some 0.120481928 ∧
    calc_wstep 0.5 0 = some 0.240963855 ∧
    calc_wstep 0.5 1 = some 0.120481928 ∧
    calc_wstep 0.5 2 = some 0.060240964 ∧
    calc_wstep 0.25 0 = some 0.120481928 ∧
    calc_wstep 0.25 1 = some 0.060240964 ∧
    calc_wstep 0.25 2 = some 0.030120482 ∧
    calc_wstep 0.125 0 = some 0.060240964 ∧
    calc_wstep 0.125 1 = some 0.030120482 ∧
    calc_wstep 0.125 2 = some 0.015060241 ∧
    calc_wstep 0.0625 0 = some 0.030120482 ∧
    calc_wstep 0.0625 1 = some 0.015060241 ∧
    calc_wstep 0.0625 2 = some 0.00753012 := by
norm_num [calc_wstep]

/-- C6: for every (resolution, zeroFill) pair outside the 15 defined
combinations, `__calc_wstep` produces no value (its local `wstep` stays
unbound, raising in Python; embedded as `none`). -/
theorem claimC6_wstep_undefined (resolution zero_fill : ℚ)
    (h : (resolution ≠ 1 ∧ resolution ≠ 0.5 ∧ resolution ≠ 0.25 ∧
            resolution ≠ 0.125 ∧ resolution ≠ 0.0625) ∨
         (zero_fill ≠ 0 ∧ zero_fill ≠ 1 ∧ zero_fill ≠ 2)) :
    calc_wstep resolution zero_fill = none := by
unfold calc_wstep
rcases h with ⟨h1, h2, h3, h4, h5⟩ | ⟨h1, h2, h3⟩
· simp [h1, h2, h3, h4, h5]
· simp [h1, h2, h3]

theorem claimC6_witness :
    (((2 : ℚ) ≠ 1 ∧ (2 : ℚ) ≠ 0.5 ∧ (2 : ℚ) ≠ 0.25 ∧ (2 : ℚ) ≠ 0.125 ∧
        (2 : ℚ) ≠ 0.0625) ∨
      ((0 : ℚ) ≠ 0 ∧ (0 : ℚ) ≠ 1 ∧ (0 : ℚ) ≠ 2)) ∧
    calc_wstep 2 0 = none :=
⟨Or.inl (by norm_num), claimC6_wstep_undefined 2 0 (Or.inl (by norm_num))⟩

/-- C9: whenever `__param_check` reports failure, `main` returns before the
grid step is resolved, before the solver is invoked, and before any
composition or noise injection: the run's trace is only the
validation-failure event, with no output spectrum. -/
theorem claimC9_validation_gates_run (data : List (String × JVal))
    (solver : ℚ → Except String ((ℕ → ℝ) × (ℕ → ℝ))) (noise : ℕ → ℕ → ℝ)
    (h : param_check data = false) :
    mainRun data solver noise = ([Event.paramCheckFailed], none) := by
simp [mainRun, h]

theorem claimC9_witness :
    param_check [] = false ∧
    mainRun [] (fun _ => Except.error "") (fun _ _ => 0)
      = ([Event.paramCheckFailed], none) :=
⟨by decide, claimC9_validation_gates_run [] (fun _ => Except.error "") (fun _ _ => 0) (by decide)⟩

/-- C8 (amended): within each scan iteration the beamsplitter, cell-window
and detector-chain stages are each gated by the corresponding enum
selector, and an unrecognized selector makes that stage a no-op while
the iteration continues; the noise injection runs unconditionally, so
with every selector unrecognized one scan still adds the noise array. -/
theorem claimC8_amended (bs cw det : String) (w noiseArr sp : ℕ → ℝ)
    (hbs : bs ≠ "AR_ZnSe" ∧ bs ≠ "AR_CaF2") (hcw : cw ≠ "CaF2" ∧ cw ≠ "ZnSe")
    (hdet : det ≠ "MCT" ∧ det ≠ "InSb") :
    stageBeamsplitter bs w sp = sp ∧ stageCellWindow cw w sp = sp ∧
      stageDetector det w sp = sp ∧
      scanStep bs cw det w noiseArr sp = fun i => sp i + noiseArr i := by
obtain ⟨hb1, hb2⟩ := hbs
obtain ⟨hc1, hc2⟩ := hcw
obtain ⟨hd1, hd2⟩ := hdet
have hb : stageBeamsplitter bs w sp = sp := by simp [stageBeamsplitter, hb1, hb2]
have hc : stageCellWindow cw w sp = sp := by simp [stageCellWindow, hc1, hc2]
have hd : stageDetector det w sp = sp := by simp [stageDetector, hd1, hd2]
refine ⟨hb, hc, hd, ?_⟩
unfold scanStep
rw [hb, hc, hd]
rfl

theorem claimC8_witness :
    ((("x" : String) ≠ "AR_ZnSe" ∧ ("x" : String) ≠ "AR_CaF2") ∧
      (("x" : String) ≠ "CaF2" ∧ ("x" : String) ≠ "ZnSe") ∧
      (("x" : String) ≠ "MCT" ∧ ("x" : String) ≠ "InSb")) ∧
    (stageBeamsplitter "x" (fun _ => 1000) (fun _ => 1) = (fun _ => 1) ∧
      stageCellWindow "x" (fun _ => 1000) (fun _ => 1) = (fun _ => 1) ∧
      stageDetector "x" (fun _ => 1000) (fun _ => 1) = (fun _ => 1) ∧
      scanStep "x" "x" "x" (fun _ => 1000) (fun _ => 5) (fun _ => 1)
        = fun i => (fun _ : ℕ => (1 : ℝ)) i + (fun _ : ℕ => (5 : ℝ)) i) :=
⟨⟨⟨by decide, by decide⟩, ⟨by decide, by decide⟩, ⟨by decide, by decide⟩⟩,
  claimC8_amended "x" "x" "x" (fun _ => 1000) (fun _ => 5) (fun _ => 1)
    ⟨by decide, by decide⟩ ⟨by decide, by decide⟩ ⟨by decide, by decide⟩⟩

/-- C8 counterexample: the claim says stage d (noise injection) is gated by
a selector and no-ops on an unrecognized value, leaving the running
spectrum unchanged; in the source the noise is added unconditionally, so
with every selector unrecognized (each gated stage provably a no-op) one
scan iteration still changes the spectrum. -/
theorem claimC8_counterexample :
    stageBeamsplitter "x" (fun _ => 1000) (fun _ => 1) = (fun _ => 1) ∧
      stageCellWindow "x" (fun _ => 1000) (fun _ => 1) = (fun _ => 1) ∧
      stageDetector "x" (fun _ => 1000) (fun _ => 1) = (fun _ => 1) ∧
      scanStep "x" "x" "x" (fun _ => 1000) (fun _ => 5) (fun _ => 1) 0
        ≠ (fun _ : ℕ => (1 : ℝ)) 0 := by
refine ⟨by simp [stageBeamsplitter], by simp [stageCellWindow], by simp [stageDetector], ?_⟩
simp [scanStep, stageBeamsplitter, stageCellWindow, stageDetector, add_array]

/-- C3: within a scan iteration whose selectors are all recognized, the
running spectrum is composed with the beamsplitter once, the cell window
twice, the detector window/filter (ZnSe for MCT, sapphire for InSb) and
the detector element, and then the noise array is added; the pre-noise
value at each grid point equals the previous value times beamsplitter,
window squared, detector-window and detector-element factors. -/
theorem claimC3_scan_composition (bs cw det : String) (w noiseArr sp : ℕ → ℝ)
    (hbs : bs = "AR_ZnSe" ∨ bs = "AR_CaF2") (hcw : cw = "CaF2" ∨ cw = "ZnSe")
    (hdet : det = "MCT" ∨ det = "InSb") :
    scanStep bs cw det w noiseArr sp = fun i =>
      sp i * beamFactor bs (w i) * windowFactor cw (w i) ^ 2 *
        detWindowFactor det (w i) * detElementFactor det (w i) + noiseArr i := by
funext i
rcases hbs with rfl | rfl <;> rcases hcw with rfl | rfl <;> rcases hdet with rfl | rfl <;>
  simp only [scanStep, stageBeamsplitter, stageCellWindow, stageDetector, add_array,
    serialSlabs, spec_of, beamFactor, windowFactor, detWindowFactor, detElementFactor,
    String.reduceEq, reduceIte] <;>
  ring

theorem claimC3_witness :
    ((("AR_ZnSe" : String) = "AR_ZnSe" ∨ ("AR_ZnSe" : String) = "AR_CaF2") ∧
      (("CaF2" : String) = "CaF2" ∨ ("CaF2" : String) = "ZnSe") ∧
      (("MCT" : String) = "MCT" ∨ ("MCT" : String) = "InSb")) ∧
    scanStep "AR_ZnSe" "CaF2" "MCT" (fun _ => 2000) (fun _ => 0) (fun _ => 1)
      = fun i => (fun _ : ℕ => (1 : ℝ)) i * beamFactor "AR_ZnSe" ((fun _ : ℕ => (2000 : ℝ)) i) *
          windowFactor "CaF2" ((fun _ : ℕ => (2000 : ℝ)) i) ^ 2 *
          detWindowFactor "MCT" ((fun _ : ℕ => (2000 : ℝ)) i) *
          detElementFactor "MCT" ((fun _ : ℕ => (2000 : ℝ)) i) + (fun _ : ℕ => (0 : ℝ)) i :=
⟨⟨Or.inl rfl, Or.inl rfl, Or.inl rfl⟩,
  claimC3_scan_composition "AR_ZnSe" "CaF2" "MCT" (fun _ => 2000) (fun _ => 0) (fun _ => 1)
    (Or.inl rfl) (Or.inl rfl) (Or.inl rfl)⟩

/-- C2: for a run of `numScan ≥ 2` scans and any scan index `1 ≤ i < numScan`,
the running spectrum on which scan `i` begins is exactly the full output
of scan `i-1` including that scan's noise injection (the full run factors
through that state), so scan effects and noise accumulate on one running
spectrum across scans. -/
theorem claimC2_scan_carry (bs cw det : String) (w : ℕ → ℝ) (noise : ℕ → ℕ → ℝ)
    (numScan i : ℕ) (sp : ℕ → ℝ) (h1 : 1 ≤ i) (h2 : i < numScan) :
    scanBase bs cw det w noise i sp
        = scanStep bs cw det w (noise (i - 1)) (scanBase bs cw det w noise (i - 1) sp) ∧
      runScans bs cw det w noise 0 numScan sp
        = runScans bs cw det w noise (i + 1) (numScan - (i + 1))
            (scanStep bs cw det w (noise i) (scanBase bs cw det w noise i sp)) := by
obtain ⟨j, rfl⟩ : ∃ j, i = j + 1 := ⟨i - 1, by omega⟩
constructor
· show runScans bs cw det w noise 0 (j + 1) sp = _
  rw [runScans_succ bs cw det w noise j 0 sp]
  simp [scanBase]
· obtain ⟨b, hb⟩ : ∃ b, numScan = (j + 1 + 1) + b := ⟨numScan - (j + 1 + 1), by omega⟩
  subst hb
  rw [runScans_split bs cw det w noise (j + 1 + 1) b 0 sp]
  rw [show (j + 1 + 1) + b - (j + 1 + 1) = b from by omega]
  rw [runScans_succ bs cw det w noise (j + 1) 0 sp]
  simp [scanBase]

theorem claimC2_witness :
    1 ≤ 1 ∧ 1 < 3 ∧
    (scanBase "AR_ZnSe" "CaF2" "MCT" (fun _ => 2000) (fun _ _ => 1) 1 (fun _ => 1)
        = scanStep "AR_ZnSe" "CaF2" "MCT" (fun _ => 2000) ((fun _ _ => 1) (1 - 1))
            (scanBase "AR_ZnSe" "CaF2" "MCT" (fun _ => 2000) (fun _ _ => 1) (1 - 1) (fun _ => 1)) ∧
      runScans "AR_ZnSe" "CaF2" "MCT" (fun _ => 2000) (fun _ _ => 1) 0 3 (fun _ => 1)
        = runScans "AR_ZnSe" "CaF2" "MCT" (fun _ => 2000) (fun _ _ => 1) (1 + 1) (3 - (1 + 1))
            (scanStep "AR_ZnSe" "CaF2" "MCT" (fun _ => 2000) ((fun _ _ => 1) 1)
              (scanBase "AR_ZnSe" "CaF2" "MCT" (fun _ => 2000) (fun _ _ => 1) 1 (fun _ => 1)))) :=
⟨by decide, by decide,
  claimC2_scan_carry "AR_ZnSe" "CaF2" "MCT" (fun _ => 2000) (fun _ _ => 1) 3 1 (fun _ => 1)
    (by decide) (by decide)⟩

/-- C10: for a run that passes validation with `numScan = 0`, the final
output is exactly the solver's base spectrum composed pointwise with the
Source (Planck) model spectrum at the configured temperature — no
beamsplitter, window or detector factor is applied and no noise is ever
added. -/
theorem claimC10_zero_scans (data : List (String × JVal))
    (solver : ℚ → Except String ((ℕ → ℝ) × (ℕ → ℝ))) (noise : ℕ → ℕ → ℝ)
    (r z ws : ℚ) (w s : ℕ → ℝ) (T : ℚ) (bs cw det : String)
    (h1 : param_check data = true) (h2 : getQ data "resolution" = some r)
    (h3 : getQ data "zeroFill" = some z) (h4 : calc_wstep r z = some ws)
    (h5 : solver ws = Except.ok (w, s)) (h6 : getQ data "source" = some T)
    (h7 : getStr data "beamsplitter" = some bs) (h8 : getStr data "cellWindow" = some cw)
    (h9 : getStr data "detector" = some det) (h10 : getScanCount data = some 0) :
    mainRun data solver noise
      = ([Event.solverCalled, Event.pipelineRun],
          some fun i => s i * sPlanck (w i) (T : ℝ)) := by
unfold mainRun
rw [if_neg (by simp [h1])]
simp [h2, h3, h4, h5, h6, h7, h8, h9, h10, runScans]
rfl

theorem claimC10_witness :
    param_check sampleConfig = true ∧
    getQ sampleConfig "resolution" = some 1 ∧
    getQ sampleConfig "zeroFill" = some 0 ∧
    calc_wstep 1 0 = some 0.481927711 ∧
    (fun _ : ℚ => Except.ok ((fun _ : ℕ => (1000 : ℝ)), fun _ : ℕ => (1 : ℝ)))
        (0.481927711 : ℚ)
      = (Except.ok ((fun _ : ℕ => (1000 : ℝ)), fun _ : ℕ => (1 : ℝ)) :
          Except String ((ℕ → ℝ) × (ℕ → ℝ))) ∧
    getQ sampleConfig "source" = some 300 ∧
    getStr sampleConfig "beamsplitter" = some "AR_ZnSe" ∧
    getStr sampleConfig "cellWindow" = some "CaF2" ∧
    getStr sampleConfig "detector" = some "MCT" ∧
    getScanCount sampleConfig = some 0 ∧
    mainRun sampleConfig
        (fun _ => Except.ok ((fun _ => (1000 : ℝ)), fun _ => (1 : ℝ))) (fun _ _ => 0)
      = ([Event.solverCalled, Event.pipelineRun],
          some fun i => (fun _ : ℕ => (1 : ℝ)) i *
            sPlanck ((fun _ : ℕ => (1000 : ℝ)) i) ((300 : ℚ) : ℝ)) :=
⟨by decide, by decide, by decide, by norm_num [calc_wstep], rfl, by decide, by decide,
  by decide, by decide, by decide,
  claimC10_zero_scans sampleConfig
    (fun _ => Except.ok ((fun _ => (1000 : ℝ)), fun _ => (1 : ℝ))) (fun _ _ => 0)
    1 0 0.481927711 (fun _ => (1000 : ℝ)) (fun _ => (1 : ℝ)) 300 "AR_ZnSe" "CaF2" "MCT"
    (by decide) (by decide) (by decide) (by norm_num [calc_wstep]) rfl (by decide)
    (by decide) (by decide) (by decide) (by decide)⟩

/-- C4: `__param_check` returns true iff the configuration's key set is
exactly the eleven recognised names and every key maps to a non-null
value; it returns false (without raising) whenever the key count differs
from 11, any key is unrecognised, or any value is null.  The hypothesis
records that a Python dict's keys are distinct. -/
theorem claimC4_param_check (data : List (String × JVal))
    (hnd : (data.map Prod.fst).Nodup) :
    param_check data = true ↔
      ((∀ k, k ∈ data.map Prod.fst ↔ k ∈ validParams) ∧
        ∀ kv ∈ data, kv.2 ≠ JVal.null) := by
constructor
· intro h
  unfold param_check at h
  have hlen : data.length = 11 := by
    by_contra hne
    rw [if_pos hne] at h
    exact absurd h (by simp)
  rw [if_neg (by simp [hlen]), List.all_eq_true] at h
  have hmem : ∀ kv ∈ data, kv.1 ∈ validParams ∧ kv.2 ≠ JVal.null := by
    intro kv hkv
    have h' := h kv hkv
    simp only [Bool.and_eq_true, decide_eq_true_eq, Bool.not_eq_true'] at h'
    exact ⟨h'.1, JVal.isNull_eq_false.mp h'.2⟩
  refine ⟨?_, fun kv hkv => (hmem kv hkv).2⟩
  have hsub : (data.map Prod.fst).toFinset ⊆ validParams.toFinset := by
    intro k hk
    rw [List.mem_toFinset] at hk
    rw [List.mem_toFinset]
    obtain ⟨kv, hkv, rfl⟩ := List.mem_map.mp hk
    exact (hmem kv hkv).1
  have hcard1 : (data.map Prod.fst).toFinset.card = 11 := by
    rw [List.toFinset_card_of_nodup hnd, List.length_map, hlen]
  have hcard2 : validParams.toFinset.card = 11 := by decide
  have heq : (data.map Prod.fst).toFinset = validParams.toFinset :=
    Finset.eq_of_subset_of_card_le hsub (le_of_eq (hcard2.trans hcard1.symm))
  intro k
  constructor
  · intro hk
    exact List.mem_toFinset.mp (heq ▸ List.mem_toFinset.mpr hk)
  · intro hk
    exact List.mem_toFinset.mp (heq.symm ▸ List.mem_toFinset.mpr hk)
· rintro ⟨hiff, hnull⟩
  have heq : (data.map Prod.fst).toFinset = validParams.toFinset := by
    apply Finset.ext
    intro k
    rw [List.mem_toFinset, List.mem_toFinset]
    exact hiff k
  have hlen : data.length = 11 := by
    have h1 : (data.map Prod.fst).toFinset.card = (data.map Prod.fst).length :=
      List.toFinset_card_of_nodup hnd
    rw [List.length_map] at h1
    rw [← h1, heq]
    decide
  unfold param_check
  rw [if_neg (by simp [hlen]), List.all_eq_true]
  intro kv hkv
  simp only [Bool.and_eq_true, decide_eq_true_eq, Bool.not_eq_true']
  exact ⟨(hiff kv.1).mp (List.mem_map.mpr ⟨kv, hkv, rfl⟩),
    JVal.isNull_eq_false.mpr (hnull kv hkv)⟩

theorem claimC4_witness :
    (sampleConfig.map Prod.fst).Nodup ∧
    (param_check sampleConfig = true ↔
      ((∀ k, k ∈ sampleConfig.map Prod.fst ↔ k ∈ validParams) ∧
        ∀ kv ∈ sampleConfig, kv.2 ≠ JVal.null)) :=
⟨by decide, claimC4_param_check sampleConfig (by decide)⟩

/-- C1 counterexample: at axis value 1000 and temperature 300 the source's
`__sPlanck` differs from the spec's formula, whose denominator ends in
`x_m = x·10⁻⁹` where the source divides by the raw axis value `x`; the
two values differ by the factor 10⁹. -/
theorem claimC1_counterexample : sPlanck 1000 300 ≠ sPlanckClaim 1000 300 := by
show (0.2 * Planck.H * Planck.C ^ 2) / (((1000 : ℝ) * 1e-9) ^ 4 * 1000) *
    (1 / (Real.exp ((Planck.H * Planck.C) /
      (((1000 : ℝ) * 1e-9) * Planck.K_B * 300)) - 1)) ≠
  (0.2 * Planck.H * Planck.C ^ 2) / (((1000 : ℝ) * 1e-9) ^ 4 * ((1000 : ℝ) * 1e-9)) *
    (1 / (Real.exp ((Planck.H * Planck.C) /
      (((1000 : ℝ) * 1e-9) * Planck.K_B * 300)) - 1))
have hx : (0 : ℝ) < (Planck.H * Planck.C) / (((1000 : ℝ) * 1e-9) * Planck.K_B * 300) := by
  rw [Planck.H, Planck.C, Planck.K_B]
  norm_num
have h1 : 1 < Real.exp ((Planck.H * Planck.C) / (((1000 : ℝ) * 1e-9) * Planck.K_B * 300)) := by
  have h2 := Real.add_one_le_exp
    ((Planck.H * Planck.C) / (((1000 : ℝ) * 1e-9) * Planck.K_B * 300))
  linarith
have ht : (1 / (Real.exp ((Planck.H * Planck.C) /
    (((1000 : ℝ) * 1e-9) * Planck.K_B * 300)) - 1)) ≠ 0 :=
  one_div_ne_zero (by linarith)
have hK : (0.2 * Planck.H * Planck.C ^ 2) / (((1000 : ℝ) * 1e-9) ^ 4 * 1000)
    ≠ (0.2 * Planck.H * Planck.C ^ 2) / (((1000 : ℝ) * 1e-9) ^ 4 * ((1000 : ℝ) * 1e-9)) := by
  rw [Planck.H, Planck.C]
  norm_num
intro h
exact hK (mul_right_cancel₀ ht h)

/-- C1 (amended): for every axis value and temperature, `__sPlanck` returns
`(0.2·h·c²)/(x_m⁴·x) · 1/(exp(h·c/(x_m·k_B·T)) − 1)` with `x_m = x·10⁻⁹`,
the final denominator factor being the raw axis value `x` rather than
`x_m`; h, c, k_B are the source's Planck constant, speed of light and
Boltzmann constant. -/
theorem claimC1_amended : ∀ x T : ℝ, sPlanck x T = sPlanckAmended x T :=
fun _ _ => rfl

/-- C7 counterexample: the claim says `__AR_ZnSe` is its baseline plus the
sum of ten Gaussian terms; the source's Gaussian component list (every
normalized-area Gaussian term appearing in the function, in source
order) has nine entries, not ten. -/
theorem claimC7_counterexample :
    ARZnSe_gaussians.length = 9 ∧ ARZnSe_gaussians.length ≠ 10 := by
constructor <;> simp [ARZnSe_gaussians]

/-- C7 (amended): for every axis value, `__AR_ZnSe` equals its
logistic-saturation baseline plus the sum of nine Gaussian terms in
normalized-area form `A/(σ·√(π/(4·ln2)))·exp(−4·ln2·(x_um−μ)²/σ²)` with
`x_um = x/1000`, the centers ranging from 0.8 to 17.4 micrometers, each
term with its own width and signed area. -/
theorem claimC7_gaussian_sum :
    (∀ x : ℝ, AR_ZnSe x = ARZnSe_baseline x +
        (ARZnSe_gaussians.map fun p => gaussTerm p.1 p.2.1 p.2.2 (x / 1000)).sum) ∧
      ARZnSe_gaussians.length = 9 ∧
      (ARZnSe_gaussians.map fun p => p.2.2)
        = [1.47, 2.88, 6.16, 16.2, 17.4, 9.5, 4.9, 2.6, 0.8] := by
refine ⟨?_, by simp [ARZnSe_gaussians], by simp [ARZnSe_gaussians]⟩
intro x
simp only [ARZnSe_gaussians, List.map_cons, List.map_nil, List.sum_cons, List.sum_nil,
  gaussTerm, ARZnSe_baseline, AR_ZnSe]
ring
